import Mathlib

/-!
# Verification of the goldmonitor derived-metrics and regime-scoring engine

Shallow embedding of `src/metrics_calculator.py`, `src/cb_monitor.py` and
`scripts/run_monthly_report.py` (the merge step). Python floats are modelled
as exact rationals; a float that may be NaN is modelled by `PyF`; a pandas
cell that may be NaN is `Option ℚ`; a dict entry that may be absent or `None`
is `DictVal`.
-/

namespace GoldMonitor

/-- A Python float value as it flows through the scorer: either NaN or a
number (modelled exactly as a rational). -/
inductive PyF where
  | nan : PyF
  | num : ℚ → PyF
deriving DecidableEq, Repr

/-- `f < c` with IEEE semantics: any comparison against NaN is false. -/
def PyF.ltc : PyF → ℚ → Bool
  | .nan, _ => false
  | .num q, c => decide (q < c)

/-- `f > c` with IEEE semantics: any comparison against NaN is false. -/
def PyF.gtc : PyF → ℚ → Bool
  | .nan, _ => false
  | .num q, c => decide (q > c)

/-- A value read from the Python `metrics` dict: the key may be absent,
present with value `None`, or present with a float. -/
inductive DictVal where
  | absent : DictVal
  | null : DictVal
  | fval : PyF → DictVal
deriving DecidableEq, Repr

/-- `metrics.get(key, 0)`: an absent key yields the default `0`; a key bound
to `None` yields `None` (modelled `none`); a float is returned as is. -/
def DictVal.get0 : DictVal → Option PyF
  | .absent => some (.num 0)
  | .null => none
  | .fval f => some f

/-- `metrics.get(key)` (default `None`): absent and `None` both yield `none`. -/
def DictVal.getNone : DictVal → Option PyF
  | .absent => none
  | .null => none
  | .fval f => some f

/-- One entry of the scorer's `components` list: `(label, signed weight,
direction icon)`. -/
structure Component where
  label : String
  weight : ℚ
  icon : String
deriving DecidableEq, Repr

/-- The `status` field of the central-bank data dict
(`cb_monitor.get_latest_data` produces exactly these five). -/
inductive CBStatus where
  | missing : CBStatus
  | empty : CBStatus
  | current : CBStatus
  | stale : CBStatus
  | error : CBStatus
deriving DecidableEq, Repr

/-- The central-bank data dict as read by the scorer.
`cb_net_tonnes = none` models an absent key (the scorer reads it with
`.get('cb_net_tonnes', 0)`); `is_stale` is the Python truthiness of
`.get('is_stale')` (an absent key is falsy); `days_old` is only ever read
on the stale path, where `get_latest_data` always sets it. -/
structure CBData where
  status : CBStatus
  cb_net_tonnes : Option ℚ
  is_stale : Bool
  days_old : ℤ
deriving DecidableEq, Repr

/-- The keys of the `metrics` dict that `calculate_regime_score` reads. -/
structure Metrics where
  real_yield_momentum_30d : DictVal
  dxy_momentum_30d : DictVal
  real_gold_zscore : DictVal
deriving DecidableEq, Repr

/-- The dict returned by `calculate_regime_score`. -/
structure RegimeScore where
  score : ℚ
  assessment : String
  conviction : String
  action : String
  components : List Component
deriving DecidableEq, Repr

/-- Python `round(score, 2)`. Every reachable score is a multiple of 1/4, so
`score * 100` is an integer and no tie-breaking (banker's rounding) can ever
fire; plain rounding is exact on that domain. -/
def round2 (q : ℚ) : ℚ := (round (q * 100) : ℤ) / 100

/-- Category 1 of `calculate_regime_score` (real yields, weight 2x):
lines 272–287 of `metrics_calculator.py`. The argument is
`metrics.get('real_yield_momentum_30d', 0)`; `none` (Python `None`)
skips the whole block. Returns the score delta and appended components. -/
def realYieldCategory (v : Option PyF) : ℚ × List Component :=
  match v with
  | none => (0, [])
  | some f =>
    if f.ltc (-2/100) then (2, [⟨"Real yields falling sharply", 2, "✅"⟩])
    else if f.ltc 0 then (1, [⟨"Real yields falling", 1, "✅"⟩])
    else if f.gtc (2/100) then (-2, [⟨"Real yields rising sharply", -2, "❌"⟩])
    else if f.gtc 0 then (-1, [⟨"Real yields rising", -1, "❌"⟩])
    else (0, [⟨"Real yields stable", 0, "➖"⟩])

/-- Category 2 (USD strength, weight 1.5x): lines 290–305. The argument is
`metrics.get('dxy_momentum_30d', 0)`. -/
def dollarCategory (v : Option PyF) : ℚ × List Component :=
  match v with
  | none => (0, [])
  | some f =>
    if f.ltc (-2/100) then (3/2, [⟨"USD weakening sharply", 3/2, "✅"⟩])
    else if f.ltc 0 then (3/4, [⟨"USD weakening", 3/4, "✅"⟩])
    else if f.gtc (2/100) then (-3/2, [⟨"USD strengthening sharply", -3/2, "❌"⟩])
    else if f.gtc 0 then (-3/4, [⟨"USD strengthening", -3/4, "❌"⟩])
    else (0, [⟨"USD stable", 0, "➖"⟩])

/-- Category 3 (central-bank buying, weight 2x): lines 308–325. Any status
other than `current`/`stale` (i.e. `missing`, `empty`, `error`) falls to the
`else` branch. -/
def cbCategory (cb : CBData) : ℚ × List Component :=
  if cb.status = .current ∨ cb.status = .stale then
    if cb.is_stale then
      (0, [⟨"CB data stale (" ++ toString cb.days_old ++ " days)", 0, "⚠️"⟩])
    else if cb.cb_net_tonnes.getD 0 > 250 then
      (2, [⟨"Strong CB buying >250t", 2, "✅"⟩])
    else if cb.cb_net_tonnes.getD 0 > 100 then
      (1, [⟨"Moderate CB buying", 1, "✅"⟩])
    else if cb.cb_net_tonnes.getD 0 < 0 then
      (-1, [⟨"CB selling", -1, "❌"⟩])
    else
      (0, [⟨"Weak CB buying", 0, "➖"⟩])
  else
    (0, [⟨"CB data missing", 0, "⚠️"⟩])

/-- Category 4 (valuation risk): lines 328–336. The argument is
`metrics.get('real_gold_zscore')`; the block runs only when the value is
neither `None` nor NaN, and appends nothing in the fair-value case. -/
def valuationCategory (z : Option PyF) : ℚ × List Component :=
  match z with
  | some (.num q) =>
    if q > 3/2 then (-1, [⟨"Overvalued (z-score >1.5)", -1, "⚠️"⟩])
    else if q > 1 then (0, [⟨"Elevated valuation (z-score >1.0)", 0, "⚠️"⟩])
    else if q < -1 then (0, [⟨"Undervalued (z-score <-1.0)", 0, "💡"⟩])
    else (0, [])
  | _ => (0, [])

/-- Lines 338–358: map the raw (unrounded) score to
`(assessment, conviction, action)`, first matching rule wins. -/
def interpretScore (score : ℚ) : String × String × String :=
  if score ≥ 3 then
    ("BULLISH", "High conviction for long position", "Consider increasing allocation")
  else if score ≥ 1 then
    ("MILDLY BULLISH", "Moderate conviction", "Maintain or slightly increase position")
  else if score ≤ -3 then
    ("BEARISH", "High conviction bearish", "Consider reducing position")
  else if score ≤ -1 then
    ("MILDLY BEARISH", "Caution warranted", "Maintain or reduce exposure")
  else
    ("NEUTRAL", "Mixed signals", "Hold current position")

/-- The raw score accumulated by lines 268–336 before rounding. -/
def rawScore (m : Metrics) (cb : CBData) : ℚ :=
  (realYieldCategory m.real_yield_momentum_30d.get0).1
    + (dollarCategory m.dxy_momentum_30d.get0).1
    + (cbCategory cb).1
    + (valuationCategory m.real_gold_zscore.getNone).1

/-- `MetricsCalculator.calculate_regime_score` (lines 249–366): the four
categories run in order, each adding its delta to `score` and appending its
components; the band is interpreted from the raw score and the returned
score is rounded to 2 decimals. -/
def calculate_regime_score (m : Metrics) (cb : CBData) : RegimeScore :=
  let c1 := realYieldCategory m.real_yield_momentum_30d.get0
  let c2 := dollarCategory m.dxy_momentum_30d.get0
  let c3 := cbCategory cb
  let c4 := valuationCategory m.real_gold_zscore.getNone
  let s := c1.1 + c2.1 + c3.1 + c4.1
  { score := round2 s
    assessment := (interpretScore s).1
    conviction := (interpretScore s).2.1
    action := (interpretScore s).2.2
    components := c1.2 ++ c2.2 ++ c3.2 ++ c4.2 }

/-! ## Rolling z-score (`calculate_zscore`, lines 47–73)

The input series is modelled as a list of (defined) rationals; pandas
`rolling(window, min_periods)` at position `i` looks at the trailing window
of up to `window` observations ending at `i` inclusive. -/

/-- The trailing window of `series.rolling(window)` at position `i`:
positions `max 0 (i+1-window)` through `i`. -/
def windowSlice (s : List ℚ) (window : ℕ) (i : ℕ) : List ℚ :=
  (s.take (i + 1)).drop (i + 1 - window)

/-- `series.rolling(window, min_periods).mean()` at position `i`:
NaN (`none`) while the window holds fewer than `min_periods` observations. -/
def rollingMean (s : List ℚ) (window minPeriods : ℕ) (i : ℕ) : Option ℚ :=
  let w := windowSlice s window i
  if w.length < minPeriods then none else some (w.sum / w.length)

/-- `series.rolling(window, min_periods).std()` squared, i.e. the sample
variance (pandas uses `ddof = 1`): NaN (`none`) while the window holds fewer
than `min_periods` observations, and NaN for a single observation. -/
def rollingVar (s : List ℚ) (window minPeriods : ℕ) (i : ℕ) : Option ℚ :=
  let w := windowSlice s window i
  if w.length < minPeriods ∨ w.length ≤ 1 then none
  else some (((w.map fun x => (x - w.sum / w.length) ^ 2).sum) / (w.length - 1 : ℕ))

/-- `series.rolling(window, min_periods).std()` at position `i`. -/
noncomputable def rollingStd (s : List ℚ) (window minPeriods : ℕ) (i : ℕ) : Option ℝ :=
  (rollingVar s window minPeriods i).map fun v => Real.sqrt (v : ℝ)

/-- `MetricsCalculator.calculate_zscore` at position `i`:
`rolling_std` is first replaced by NaN where it is 0 (the variance is 0
exactly where the std is 0), then `(series - rolling_mean) / rolling_std`;
NaN in any operand propagates. -/
noncomputable def calculate_zscore (s : List ℚ) (window minPeriods : ℕ) (i : ℕ) :
    Option ℝ :=
  match s[i]?, rollingMean s window minPeriods i, rollingVar s window minPeriods i with
  | some x, some μ, some v =>
    if v = 0 then none
    else some (((x - μ : ℚ) : ℝ) / Real.sqrt (v : ℝ))
  | _, _, _ => none

/-! ## Momentum (`calculate_momentum`, lines 75–99)

Series cells may be NaN (`pd.isna`), so a cell is `Option ℚ`. For a
lookback `days ≥ 1` and `len ≥ days`, Python's `series.iloc[-days]` is the
element at position `len - days`; the source's `else series.iloc[0]` arm is
dead code because it is guarded by `len(series) >= days`, which the earlier
early return already established. -/

/-- `MetricsCalculator.calculate_momentum`: `None` when the series is
shorter than `days`, when either endpoint is NaN, or when the past value is
zero; otherwise `(current / past) - 1`. -/
def calculate_momentum (s : List (Option ℚ)) (days : ℕ) : Option ℚ :=
  if s.length < days then none
  else
    match s.getLast?, s[(s.length - days)]? with
    | some (some current), some (some past) =>
      if past = 0 then none else some (current / past - 1)
    | _, _ => none

/-! ## Gold/S&P ratio (`calculate_gold_sp_ratio`, lines 101–118)

Elementwise float division of two aligned columns. The columns hold numbers
or NaN; the quotient can additionally be ±infinity, so the result cell is a
full IEEE value. -/

/-- An IEEE float result cell: NaN, ±infinity, or a finite number. -/
inductive FVal where
  | nan : FVal
  | posinf : FVal
  | neginf : FVal
  | num : ℚ → FVal
deriving DecidableEq, Repr

/-- IEEE float division of two (possibly NaN) finite cells, as numpy
performs it elementwise: `x / 0` is ±infinity for `x ≠ 0` and NaN for
`x = 0`; NaN propagates. -/
def divCell : Option ℚ → Option ℚ → FVal
  | some a, some b =>
    if b = 0 then
      if a = 0 then .nan else if 0 < a then .posinf else .neginf
    else .num (a / b)
  | _, _ => .nan

/-- A DataFrame restricted to the two columns the ratio reads; `none` means
the column is absent. Cells are aligned by position (date). -/
structure RatioDF where
  gold_spot : Option (List (Option ℚ))
  sp500 : Option (List (Option ℚ))

/-- `MetricsCalculator.calculate_gold_sp_ratio`: an empty series if either
column is absent, otherwise elementwise `gold_spot / sp500`. -/
def calculate_gold_sp_ratio (df : RatioDF) : List FVal :=
  match df.gold_spot, df.sp500 with
  | some g, some s => List.zipWith divCell g s
  | _, _ => []

/-! ## Merge of historical and fresh data

`calculate_all_metrics` lines 157–162 and `run_monthly_report.py`
`save_historical_data` lines 64–85 both run
`pd.concat([historical, fresh]).drop_duplicates()` followed by a sort on the
date index. pandas `drop_duplicates` compares only the row values — the
date index is NOT part of the comparison — and keeps the first occurrence. -/

/-- A row of a single-metric frame: (date, value). Dates are day numbers. -/
abbrev Row := ℤ × ℚ

/-- `DataFrame.drop_duplicates()`: drop every row whose value part equals
the value part of an earlier row, regardless of its date index. -/
def dropDuplicates : List Row → List ℚ → List Row
  | [], _ => []
  | r :: rest, seen =>
    if r.2 ∈ seen then dropDuplicates rest seen
    else r :: dropDuplicates rest (r.2 :: seen)

/-- `pd.concat([historical, fresh]).drop_duplicates().sort_index()`. -/
def merge (historical fresh : List Row) : List Row :=
  (dropDuplicates (historical ++ fresh) []).insertionSort fun a b => a.1 ≤ b.1

/-! ## `CentralBankMonitor.get_latest_data` (cb_monitor.py lines 208–251)

The CSV file is `none` when absent, otherwise its parsed rows; `today` is
`datetime.now()` as a day number. The generic `except` arm (status `error`)
catches I/O and parse failures that the model has no way to trigger, so it
is not reachable here. -/

/-- One row of `data/cb_reserves.csv`. `validated_date` is a day number. -/
structure CBRow where
  quarter : String
  cb_net_tonnes : ℚ
  source : String
  validated_date : ℤ
deriving DecidableEq, Repr

/-- `CentralBankMonitor.get_latest_data`: status `missing` when the file is
absent, `empty` when it has no rows; otherwise the last row is read,
`days_old = today - validated_date`, `is_stale = days_old > 90`, and the
status is `stale` when `days_old > 90` and `current` otherwise. The
`missing`/`empty` dicts carry no tonnes/staleness keys (modelled by `none`
and the falsy defaults the scorer would read back). -/
def get_latest_data (file : Option (List CBRow)) (today : ℤ) : CBData :=
  match file with
  | none => { status := .missing, cb_net_tonnes := none, is_stale := false, days_old := 0 }
  | some [] => { status := .empty, cb_net_tonnes := none, is_stale := false, days_old := 0 }
  | some (r :: rs) =>
    let latest := (r :: rs).getLast (by simp)
    let days_old := today - latest.validated_date
    { status := if days_old > 90 then .stale else .current
      cb_net_tonnes := some latest.cb_net_tonnes
      is_stale := days_old > 90
      days_old := days_old }

/-! ## Shared helper lemmas -/

/-- Each real-yield branch's score delta equals the sum of the weights of the
components it appends. -/
lemma realYieldCategory_weight_sum (v : Option PyF) :
    (((realYieldCategory v).2.map Component.weight).sum) = (realYieldCategory v).1 := by
  rcases v with _ | f
  · rfl
  · simp only [realYieldCategory]
    split_ifs <;> simp

/-- Each dollar branch's score delta equals the sum of its appended weights. -/
lemma dollarCategory_weight_sum (v : Option PyF) :
    (((dollarCategory v).2.map Component.weight).sum) = (dollarCategory v).1 := by
  rcases v with _ | f
  · rfl
  · simp only [dollarCategory]
    split_ifs <;> simp

/-- Each central-bank branch's score delta equals the sum of its appended
weights. -/
lemma cbCategory_weight_sum (cb : CBData) :
    (((cbCategory cb).2.map Component.weight).sum) = (cbCategory cb).1 := by
  unfold cbCategory
  split_ifs <;> simp

/-- Each valuation branch's score delta equals the sum of its appended
weights. -/
lemma valuationCategory_weight_sum (z : Option PyF) :
    (((valuationCategory z).2.map Component.weight).sum) = (valuationCategory z).1 := by
  rcases z with _ | f
  · rfl
  · rcases f with _ | q
    · rfl
    · simp only [valuationCategory]
      split_ifs <;> simp

/-- The central-bank category appends exactly one component on every path. -/
lemma cbCategory_length (cb : CBData) : ((cbCategory cb).2).length = 1 := by
  unfold cbCategory
  split_ifs <;> rfl

/-! ## Claims -/

/-- Claim C1: with real-yield 30-day momentum −0.025, dollar 30-day momentum
−0.01, a current non-stale quarterly signal of 300 tonnes, and real-price
z-score 0.5, `calculate_regime_score` returns score 4.75, band BULLISH,
conviction "High conviction for long position", and exactly the three
weighted components (real yields +2, dollar +0.75, central bank +2) in
category order with no valuation entry. -/
theorem C1_end_to_end_example :
    calculate_regime_score
        ⟨.fval (.num (-25/1000)), .fval (.num (-1/100)), .fval (.num (1/2))⟩
        ⟨.current, some 300, false, 45⟩ =
      { score := 19/4
        assessment := "BULLISH"
        conviction := "High conviction for long position"
        action := "Consider increasing allocation"
        components := [⟨"Real yields falling sharply", 2, "✅"⟩,
                       ⟨"USD weakening", 3/4, "✅"⟩,
                       ⟨"Strong CB buying >250t", 2, "✅"⟩] } := by
  norm_num [calculate_regime_score, realYieldCategory, dollarCategory, cbCategory,
    valuationCategory, interpretScore, round2, rawScore, DictVal.get0, DictVal.getNone,
    PyF.ltc, PyF.gtc]

/-- Claim C2: the band, conviction and action returned by
`calculate_regime_score` are exactly `interpretScore` of the summed raw
score, and `interpretScore` applies its rules in fixed order (≥ 3 BULLISH,
≥ 1 MILDLY BULLISH, ≤ −3 BEARISH, ≤ −1 MILDLY BEARISH, else NEUTRAL), each
band carrying its fixed texts; in particular 3.00 is BULLISH, 2.99 MILDLY
BULLISH, −3.00 BEARISH, and −0.99 NEUTRAL. -/
theorem C2_band_classification :
    (∀ (m : Metrics) (cb : CBData),
        (calculate_regime_score m cb).assessment = (interpretScore (rawScore m cb)).1 ∧
        (calculate_regime_score m cb).conviction = (interpretScore (rawScore m cb)).2.1 ∧
        (calculate_regime_score m cb).action = (interpretScore (rawScore m cb)).2.2) ∧
    (∀ s : ℚ,
        (3 ≤ s → interpretScore s =
          ("BULLISH", "High conviction for long position",
           "Consider increasing allocation")) ∧
        (¬ 3 ≤ s → 1 ≤ s → interpretScore s =
          ("MILDLY BULLISH", "Moderate conviction",
           "Maintain or slightly increase position")) ∧
        (¬ 3 ≤ s → ¬ 1 ≤ s → s ≤ -3 → interpretScore s =
          ("BEARISH", "High conviction bearish", "Consider reducing position")) ∧
        (¬ 3 ≤ s → ¬ 1 ≤ s → ¬ s ≤ -3 → s ≤ -1 → interpretScore s =
          ("MILDLY BEARISH", "Caution warranted", "Maintain or reduce exposure")) ∧
        (¬ 3 ≤ s → ¬ 1 ≤ s → ¬ s ≤ -3 → ¬ s ≤ -1 → interpretScore s =
          ("NEUTRAL", "Mixed signals", "Hold current position"))) ∧
    (interpretScore 3).1 = "BULLISH" ∧
    (interpretScore (299/100)).1 = "MILDLY BULLISH" ∧
    (interpretScore (-3)).1 = "BEARISH" ∧
    (interpretScore (-99/100)).1 = "NEUTRAL" := by
  refine ⟨fun m cb => ⟨rfl, rfl, rfl⟩, fun s => ⟨?_, ?_, ?_, ?_, ?_⟩, ?_, ?_, ?_, ?_⟩
  · intro h; simp [interpretScore, h]
  · intro h1 h2; simp [interpretScore, h1, h2]
  · intro h1 h2 h3; simp [interpretScore, h1, h2, h3]
  · intro h1 h2 h3 h4; simp [interpretScore, h1, h2, h3, h4]
  · intro h1 h2 h3 h4; simp [interpretScore, h1, h2, h3, h4]
  · norm_num [interpretScore]
  · norm_num [interpretScore]
  · norm_num [interpretScore]
  · norm_num [interpretScore]

/-- Witness for C2 at score 5: the first rule fires and yields BULLISH. -/
theorem C2_band_classification_witness :
    interpretScore 5 =
      ("BULLISH", "High conviction for long position",
       "Consider increasing allocation") :=
  (C2_band_classification.2.1 5).1 (by norm_num)

/-- Counterexample to claim C3: with the 30-day real-yield and dollar
momentum keys absent from the snapshot, the scorer reads them back as the
default 0, so a 0-weight "stable" entry IS appended for each of those
categories — the claim that no component entry is appended is false. -/
theorem C3_counterexample :
    (calculate_regime_score ⟨.absent, .absent, .absent⟩
        ⟨.missing, none, false, 0⟩).components =
      [⟨"Real yields stable", 0, "➖"⟩, ⟨"USD stable", 0, "➖"⟩,
       ⟨"CB data missing", 0, "⚠️"⟩] := by
  norm_num [calculate_regime_score, realYieldCategory, dollarCategory, cbCategory,
    valuationCategory, DictVal.get0, DictVal.getNone, PyF.ltc, PyF.gtc]
  decide

/-- An absent momentum key is read back as the default 0, which takes the
final `else` branch of the real-yield category. -/
lemma realYieldCategory_absent :
    realYieldCategory (DictVal.get0 .absent) =
      (0, [⟨"Real yields stable", 0, "➖"⟩]) := by
  norm_num [realYieldCategory, DictVal.get0, PyF.ltc, PyF.gtc]

/-- A momentum key bound to `None` skips the real-yield category. -/
lemma realYieldCategory_null : realYieldCategory (DictVal.get0 .null) = (0, []) := rfl

/-- An absent momentum key is read back as the default 0, which takes the
final `else` branch of the dollar category. -/
lemma dollarCategory_absent :
    dollarCategory (DictVal.get0 .absent) = (0, [⟨"USD stable", 0, "➖"⟩]) := by
  norm_num [dollarCategory, DictVal.get0, PyF.ltc, PyF.gtc]

/-- A momentum key bound to `None` skips the dollar category. -/
lemma dollarCategory_null : dollarCategory (DictVal.get0 .null) = (0, []) := rfl

/-- Claim C3 as amended: an absent 30-day momentum key is read with default
0, so the category contributes weight 0 with an explicit "stable" component;
the score is exactly what it would be with no entry (a key present with
value `None`); likewise for the dollar category. -/
theorem C3_absent_momentum_amended (d z : DictVal) (cb : CBData) :
    (calculate_regime_score ⟨.absent, d, z⟩ cb).components =
        ⟨"Real yields stable", 0, "➖"⟩ ::
          (calculate_regime_score ⟨.null, d, z⟩ cb).components ∧
    (calculate_regime_score ⟨.absent, d, z⟩ cb).score =
        (calculate_regime_score ⟨.null, d, z⟩ cb).score ∧
    (∀ r : DictVal,
      (calculate_regime_score ⟨r, .absent, z⟩ cb).components =
          (realYieldCategory r.get0).2 ++ ⟨"USD stable", 0, "➖"⟩ ::
            ((cbCategory cb).2 ++ (valuationCategory z.getNone).2) ∧
      (calculate_regime_score ⟨r, .absent, z⟩ cb).score =
          (calculate_regime_score ⟨r, .null, z⟩ cb).score) := by
  refine ⟨?_, ?_, fun r => ⟨?_, ?_⟩⟩ <;>
    simp [calculate_regime_score, realYieldCategory_absent, realYieldCategory_null,
      dollarCategory_absent, dollarCategory_null]

/-- Claim C4: when the quarterly signal's status is `current` or `stale`,
a stale signal contributes 0 with a stale flag component, otherwise
tonnes > 250 gives +2, tonnes > 100 gives +1, tonnes < 0 gives −1, and any
other tonnage gives 0 with a "weak buying" entry; a `missing`/`empty`/`error`
status yields a 0-weight "data missing" flag; and the signal built by
`get_latest_data` from a readable, non-empty CSV has `is_stale` true exactly
when `days_old > 90`, with status `stale` then and `current` otherwise.
(The category is a total function: it never raises.) -/
theorem C4_central_bank_category (cb : CBData) (r0 : CBRow) (rows : List CBRow)
    (today : ℤ) :
    ((cb.status = .current ∨ cb.status = .stale) →
      ((cb.is_stale = true →
          cbCategory cb =
            (0, [⟨"CB data stale (" ++ toString cb.days_old ++ " days)", 0, "⚠️"⟩])) ∧
       (cb.is_stale = false →
         ((cb.cb_net_tonnes.getD 0 > 250 →
             cbCategory cb = (2, [⟨"Strong CB buying >250t", 2, "✅"⟩])) ∧
          (¬ cb.cb_net_tonnes.getD 0 > 250 → cb.cb_net_tonnes.getD 0 > 100 →
             cbCategory cb = (1, [⟨"Moderate CB buying", 1, "✅"⟩])) ∧
          (¬ cb.cb_net_tonnes.getD 0 > 250 → ¬ cb.cb_net_tonnes.getD 0 > 100 →
             cb.cb_net_tonnes.getD 0 < 0 →
             cbCategory cb = (-1, [⟨"CB selling", -1, "❌"⟩])) ∧
          (¬ cb.cb_net_tonnes.getD 0 > 250 → ¬ cb.cb_net_tonnes.getD 0 > 100 →
             ¬ cb.cb_net_tonnes.getD 0 < 0 →
             cbCategory cb = (0, [⟨"Weak CB buying", 0, "➖"⟩])))))) ∧
    ((cb.status = .missing ∨ cb.status = .empty ∨ cb.status = .error) →
      cbCategory cb = (0, [⟨"CB data missing", 0, "⚠️"⟩])) ∧
    ((get_latest_data (some (r0 :: rows)) today).is_stale = true ↔
        (get_latest_data (some (r0 :: rows)) today).days_old > 90) ∧
    ((get_latest_data (some (r0 :: rows)) today).days_old > 90 →
        (get_latest_data (some (r0 :: rows)) today).status = .stale) ∧
    (¬ (get_latest_data (some (r0 :: rows)) today).days_old > 90 →
        (get_latest_data (some (r0 :: rows)) today).status = .current) := by
  refine ⟨fun hst => ⟨?_, fun hfresh => ⟨?_, ?_, ?_, ?_⟩⟩, ?_, ?_, ?_, ?_⟩
  · intro h; simp [cbCategory, hst, h]
  · intro h1; simp [cbCategory, hst, hfresh, h1]
  · intro h1 h2; simp [cbCategory, hst, hfresh, h1, h2]
  · intro h1 h2 h3; simp [cbCategory, hst, hfresh, h1, h2, h3]
  · intro h1 h2 h3; simp [cbCategory, hst, hfresh, h1, h2, h3]
  · intro h
    rcases h with h | h | h <;> simp [cbCategory, h]
  · simp [get_latest_data]
  · intro h; simp only [get_latest_data] at h ⊢; rw [if_pos (by exact_mod_cast h)]
  · intro h; simp only [get_latest_data] at h ⊢; rw [if_neg (by exact_mod_cast h)]

/-- Witness for C4: a missing-status signal takes the "data missing" flag
branch, and a CSV validated 110 days ago yields a stale-status signal. -/
theorem C4_central_bank_category_witness :
    cbCategory ⟨.missing, none, false, 0⟩ = (0, [⟨"CB data missing", 0, "⚠️"⟩]) ∧
    (get_latest_data (some [⟨"Q1_2025", 300, "WGC", 10⟩]) 120).status = .stale :=
  ⟨(C4_central_bank_category ⟨.missing, none, false, 0⟩ ⟨"Q1_2025", 300, "WGC", 10⟩ [] 120).2.1
      (Or.inl rfl),
   (C4_central_bank_category ⟨.missing, none, false, 0⟩ ⟨"Q1_2025", 300, "WGC", 10⟩ [] 120).2.2.2.1
      (by norm_num [get_latest_data])⟩

/-- Claim C5: with a defined real-price z-score `z`, the valuation category
contributes −1 with an "overvalued" entry when `z > 1.5`, a 0-weight
"elevated" flag when `1 < z ≤ 1.5`, a 0-weight "undervalued" flag when
`z < −1`, and otherwise appends no component at all; and the valuation
components are exactly the last segment of the scorer's component list. -/
theorem C5_valuation_category (z : ℚ) (m : Metrics) (cb : CBData) :
    (z > 3/2 → valuationCategory (some (.num z)) =
        (-1, [⟨"Overvalued (z-score >1.5)", -1, "⚠️"⟩])) ∧
    (1 < z → z ≤ 3/2 → valuationCategory (some (.num z)) =
        (0, [⟨"Elevated valuation (z-score >1.0)", 0, "⚠️"⟩])) ∧
    (z < -1 → valuationCategory (some (.num z)) =
        (0, [⟨"Undervalued (z-score <-1.0)", 0, "💡"⟩])) ∧
    (-1 ≤ z → z ≤ 1 → valuationCategory (some (.num z)) = (0, [])) ∧
    (m.real_gold_zscore = .fval (.num z) →
      (calculate_regime_score m cb).components =
        (realYieldCategory m.real_yield_momentum_30d.get0).2 ++
          ((dollarCategory m.dxy_momentum_30d.get0).2 ++
            ((cbCategory cb).2 ++ (valuationCategory (some (.num z))).2))) := by
  refine ⟨?_, ?_, ?_, ?_, ?_⟩
  · intro h; simp only [valuationCategory]; rw [if_pos h]
  · intro h1 h2
    simp only [valuationCategory]
    rw [if_neg (by exact not_lt.2 h2), if_pos h1]
  · intro h
    simp only [valuationCategory]
    rw [if_neg (by linarith), if_neg (by linarith), if_pos h]
  · intro h1 h2
    simp only [valuationCategory]
    rw [if_neg (by linarith), if_neg (by linarith), if_neg (by linarith)]
  · intro h
    simp [calculate_regime_score, h, DictVal.getNone]

/-- Witness for C5 at z-score 2: the "overvalued" branch fires. -/
theorem C5_valuation_category_witness :
    valuationCategory (some (.num 2)) =
      (-1, [⟨"Overvalued (z-score >1.5)", -1, "⚠️"⟩]) :=
  (C5_valuation_category 2 ⟨.absent, .absent, .absent⟩ ⟨.missing, none, false, 0⟩).1
    (by norm_num)

/-- Claim C10: the returned score equals the 2-decimal rounding of the sum
of the signed weights of the returned components, and the component list is
never empty because the central-bank category appends exactly one entry on
every execution path. -/
theorem C10_score_invariant (m : Metrics) (cb : CBData) :
    (calculate_regime_score m cb).score =
      round2 (((calculate_regime_score m cb).components.map Component.weight).sum) ∧
    ((cbCategory cb).2).length = 1 ∧
    (calculate_regime_score m cb).components ≠ [] := by
  refine ⟨?_, cbCategory_length cb, ?_⟩
  · simp only [calculate_regime_score, List.map_append, List.sum_append,
      realYieldCategory_weight_sum, dollarCategory_weight_sum, cbCategory_weight_sum,
      valuationCategory_weight_sum]
  · intro h
    have hlen := cbCategory_length cb
    simp only [calculate_regime_score, List.append_eq_nil] at h
    rw [h.1.2] at hlen
    simp at hlen

/-- The trailing window at position `i` never holds more than `i + 1`
observations. -/
lemma windowSlice_length_le (s : List ℚ) (window i : ℕ) :
    (windowSlice s window i).length ≤ i + 1 := by
  simp only [windowSlice, List.length_drop, List.length_take]
  omega

/-- A rolling sample variance is nonnegative: it is a sum of squares over a
positive count. -/
lemma rollingVar_nonneg (s : List ℚ) (window minPeriods i : ℕ) (v : ℚ)
    (h : rollingVar s window minPeriods i = some v) : 0 ≤ v := by
  simp only [rollingVar] at h
  split_ifs at h with hc
  rw [Option.some_inj] at h
  subst h
  apply div_nonneg
  · apply List.sum_nonneg
    intro a ha
    rw [List.mem_map] at ha
    obtain ⟨y, -, rfl⟩ := ha
    positivity
  · positivity

/-- When the rolling mean is NaN the z-score is NaN, whatever the other
operands are. -/
lemma calculate_zscore_none_of_mean_none (s : List ℚ) (window minPeriods i : ℕ)
    (h : rollingMean s window minPeriods i = none) :
    calculate_zscore s window minPeriods i = none := by
  rcases hg : s[i]? with _ | x <;>
    rcases hv : rollingVar s window minPeriods i with _ | v <;>
    simp [calculate_zscore, hg, h, hv]

/-- Claim C6: the rolling z-score (window 1260, minPeriods 252) is undefined
at a date with fewer than 252 observations up to it, undefined where the
window holds fewer than 252 observations, undefined where the rolling
standard deviation is exactly zero, and wherever defined equals
`(value − rollingMean) / rollingStd` over the trailing window. -/
theorem C6_zscore_definedness (s : List ℚ) (i : ℕ) (x μ v : ℚ) :
    (i + 1 < 252 → calculate_zscore s 1260 252 i = none) ∧
    ((windowSlice s 1260 i).length < 252 → calculate_zscore s 1260 252 i = none) ∧
    (rollingStd s 1260 252 i = some 0 → calculate_zscore s 1260 252 i = none) ∧
    (s[i]? = some x → rollingMean s 1260 252 i = some μ →
      rollingVar s 1260 252 i = some v → v ≠ 0 →
      calculate_zscore s 1260 252 i =
        some (((x - μ : ℚ) : ℝ) / Real.sqrt (v : ℝ))) := by
  refine ⟨?_, ?_, ?_, ?_⟩
  · intro h
    apply calculate_zscore_none_of_mean_none
    have hle := windowSlice_length_le s 1260 i
    simp [rollingMean]
    omega
  · intro h
    apply calculate_zscore_none_of_mean_none
    simp [rollingMean, h]
  · intro h
    rcases hv0 : rollingVar s 1260 252 i with _ | v0
    · simp [rollingStd, hv0] at h
    · have hs0 : Real.sqrt (v0 : ℝ) = 0 := by simpa [rollingStd, hv0] using h
      have hnn : (0 : ℚ) ≤ v0 := rollingVar_nonneg s 1260 252 i v0 hv0
      have hle : (v0 : ℝ) ≤ 0 := Real.sqrt_eq_zero'.mp hs0
      have hz : v0 = 0 := le_antisymm (by exact_mod_cast hle) hnn
      rcases hg : s[i]? with _ | x0 <;>
        rcases hm : rollingMean s 1260 252 i with _ | μ0 <;>
        simp [calculate_zscore, hg, hm, hv0, hz]
  · intro hx hm hv hne
    simp [calculate_zscore, hx, hm, hv, hne]

/-- Witness for C6: a one-element series has fewer than 252 observations at
position 0, so its z-score there is undefined. -/
theorem C6_zscore_definedness_witness :
    (0 : ℕ) + 1 < 252 ∧ calculate_zscore [1] 1260 252 0 = none :=
  ⟨by norm_num, (C6_zscore_definedness [1] 0 0 0 0).1 (by norm_num)⟩

/-- Claim C7: for a positive lookback, momentum is `None` when the series is
shorter than the lookback, when either endpoint is NaN, or when the lookback
value is zero; otherwise it is `(current / past) − 1` with `current` the last
observation and `past` the observation at position `length − days`. -/
theorem C7_momentum_definedness (s : List (Option ℚ)) (days : ℕ) (_hd : 1 ≤ days)
    (c p : ℚ) :
    (s.length < days → calculate_momentum s days = none) ∧
    (s.getLast? = some none → calculate_momentum s days = none) ∧
    (s[(s.length - days)]? = some none → calculate_momentum s days = none) ∧
    (s.getLast? = some (some c) → s[(s.length - days)]? = some (some p) →
      ((p = 0 → calculate_momentum s days = none) ∧
       (p ≠ 0 → ¬ s.length < days →
         calculate_momentum s days = some (c / p - 1)))) := by
  refine ⟨?_, ?_, ?_, fun hc hp => ⟨?_, ?_⟩⟩
  · intro h; simp [calculate_momentum, h]
  · intro h
    by_cases hl : s.length < days
    · simp [calculate_momentum, hl]
    · rcases hp : s[(s.length - days)]? with _ | pp
      · simp [calculate_momentum, hl, h, hp]
      · rcases pp with _ | pv <;> simp [calculate_momentum, hl, h, hp]
  · intro h
    by_cases hl : s.length < days
    · simp [calculate_momentum, hl]
    · rcases hc2 : s.getLast? with _ | cc
      · simp [calculate_momentum, hl, h, hc2]
      · rcases cc with _ | cv <;> simp [calculate_momentum, hl, h, hc2]
  · intro h0
    by_cases hl : s.length < days <;> simp [calculate_momentum, hl, hc, hp, h0]
  · intro hne hl
    simp [calculate_momentum, hl, hc, hp, hne]

/-- Witness for C7 with lookback 2 on a 3-element series: endpoints 4 and 2
give momentum 4/2 − 1 = 1. -/
theorem C7_momentum_definedness_witness :
    1 ≤ 2 ∧ calculate_momentum [some 1, some 2, some 4] 2 = some 1 := by
  constructor
  · norm_num
  · have h := ((C7_momentum_definedness [some 1, some 2, some 4] 2 (by norm_num) 4 2).2.2.2
      rfl rfl).2 (by norm_num) (by norm_num)
    rw [h]
    norm_num

/-- Counterexample to claim C8: the source divides the two columns with no
divide-by-zero guard, so at a date where the denominator is 0 and the
numerator is nonzero the ratio is +infinity, not undefined. -/
theorem C8_counterexample :
    calculate_gold_sp_ratio ⟨some [some 1], some [some 0]⟩ = [FVal.posinf] ∧
    FVal.posinf ≠ FVal.nan := by
  constructor
  · simp [calculate_gold_sp_ratio, divCell]
  · simp

/-- Claim C8 as amended: the ratio is elementwise IEEE division of the two
columns; it is NaN (undefined) at a date where either operand is missing,
and at a zero denominator it is NaN only when the numerator is zero or
missing — with a nonzero numerator it is ±infinity, because the code has no
divide-by-zero guard; an absent column yields the empty series. -/
theorem C8_ratio_amended (g sp xs : List (Option ℚ)) (a b : ℚ) :
    calculate_gold_sp_ratio ⟨some g, some sp⟩ = List.zipWith divCell g sp ∧
    calculate_gold_sp_ratio ⟨none, some xs⟩ = [] ∧
    calculate_gold_sp_ratio ⟨some xs, none⟩ = [] ∧
    calculate_gold_sp_ratio ⟨none, none⟩ = [] ∧
    (∀ y, divCell none y = .nan) ∧
    (∀ x, divCell x none = .nan) ∧
    divCell (some a) (some 0) =
      (if a = 0 then .nan else if 0 < a then .posinf else .neginf) ∧
    (b ≠ 0 → divCell (some a) (some b) = .num (a / b)) := by
  refine ⟨rfl, rfl, rfl, rfl, fun y => ?_, fun x => ?_, ?_, fun h => ?_⟩
  · rcases y with _ | y <;> rfl
  · rcases x with _ | x <;> rfl
  · simp [divCell]
  · simp [divCell, h]

/-- Witness for C8 (amended) at 1/2: a nonzero denominator yields the finite
quotient. -/
theorem C8_ratio_amended_witness :
    (2 : ℚ) ≠ 0 ∧ divCell (some 1) (some 2) = .num (1 / 2) :=
  ⟨by norm_num,
   (C8_ratio_amended [] [] [] 1 2).2.2.2.2.2.2.2 (by norm_num)⟩

/-- Claim C9 describes the intended merge, but the code has a slip: pandas
`drop_duplicates` compares only the row values, never the date index, so a
row whose value equals an EARLIER row's value is dropped even at a new date.
On historical [(0,5),(1,5)] and fresh [(1,5)] — date 1 shared by both inputs
with the identical value 5 — no row for date 1 survives at all, instead of
the single row the claim requires. -/
theorem C9_merge_value_dedup_bug :
    merge [(0, 5), (1, 5)] [(1, 5)] = [(0, 5)] ∧
    (merge [(0, 5), (1, 5)] [(1, 5)]).filter (fun r => r.1 == 1) = [] := by
  constructor <;> rfl

end GoldMonitor
